import Mathlib

/-!
Verification of the `ccip-basic-receiver` Solana program
(repository `solana-starter-kit`), shallowly embedded in Lean 4.

The repository contains two iterations of the receiver:

* the "scalar variant" (`src/instructions/ccip_receive.rs` together with the
  account constraints of `src/context.rs`): instruction arguments are a
  message and a single `token_amount : u64`; the remaining-accounts list must
  hold exactly 5 accounts (mint, vault, vault authority, recipient, token
  program) when a transfer is processed;

* the "list variant" (`src/lib.rs`): instruction arguments are a message and
  `token_amounts : Vec<u64>`; the remaining-accounts list must hold exactly
  6 accounts per entry of that vector (mint, token metadata, vault, vault
  authority, recipient, token program), and each nonzero entry is processed
  in a loop.

Machine integers are modelled as `Nat`.  Anchor workspaces compile with
`overflow-checks = true`, so `u64` overflow aborts the instruction; the
unchecked `message_count += 1` is therefore modelled as failing (a panic that
aborts the call) when the incremented counter would not fit in 64 bits, and
`checked_add` as returning the `ArithmeticOverflow` error.

Program-derived addresses are modelled by an inductive key type whose PDA
constructors are injective and disjoint from ordinary keys: distinct seed
labels ("external_execution_config", "allowed_offramp", "token_metadata",
...) give distinct derivation families, the standard collision-freeness
idealisation of `find_program_address`.  The `u64 → little-endian bytes`
seed component is injective, so the chain selector is kept as a `Nat` field.

The cross-program token transfer is external to this program: it is modelled
by an oracle `transferAccepts : TransferCall → Bool` deciding whether the
token program accepts the transfer; the run result records every transfer
sub-call that was attempted.  An erroring instruction is rolled back by the
Solana runtime, which is modelled by `RunResult.finalStorage`: the persisted
storage after the call is the new storage on success and the pre-call
storage on error.
-/

/-- Solana public keys.  `raw n` is an ordinary key; the `pda*` constructors
are program-derived addresses: `pda2 label k prog` derives from seeds
`[label, k]` under program `prog` with the canonical bump, `pda3` adds a
little-endian `u64` seed, and `pda2b label k bump prog` is
`create_program_address` with an explicit bump byte. -/
inductive Pubkey where
  | raw : Nat → Pubkey
  | pda2 : String → Pubkey → Pubkey → Pubkey
  | pda3 : String → Nat → Pubkey → Pubkey → Pubkey
  | pda2b : String → Pubkey → Nat → Pubkey → Pubkey
deriving DecidableEq, Repr

/-- `declare_id!("671b2A65jR5QxwYFSuEMBhQ6bWJKkGMheEp3ReWC9WnB")`, the
receiver program id (`crate::ID`), modelled as an opaque ordinary key. -/
def ccipReceiverProgramId : Pubkey := .raw 671

/-- The SPL token program id, the owner that `anchor_spl`
`Account::<Mint>::try_from` and `Account::<TokenAccount>::try_from`
require. -/
def splTokenProgramId : Pubkey := .raw 1082

/-- The system program id: the owner of every account that was never
created/assigned by any program. -/
def systemProgramId : Pubkey := .raw 0

/-- Seed label from `constants.rs`: `EXTERNAL_EXECUTION_CONFIG_SEED`. -/
def EXTERNAL_EXECUTION_CONFIG_SEED : String := "external_execution_config"

/-- Seed label from `constants.rs`: `ALLOWED_OFFRAMP`. -/
def ALLOWED_OFFRAMP : String := "allowed_offramp"

/-- Seed label from `constants.rs` / `lib.rs`: `TOKEN_METADATA_SEED`. -/
def TOKEN_METADATA_SEED : String := "token_metadata"

/-- Seed label from `constants.rs` / `lib.rs`: `TOKEN_VAULT_SEED`. -/
def TOKEN_VAULT_SEED : String := "token_vault"

/-- The error enum of `error.rs` (`#[error_code] CCIPReceiverError`). -/
inductive CCIPReceiverError where
  | onlyRouter
  | invalidRouter
  | invalidChainAndSender
  | onlyOwner
  | invalidCaller
  | invalidProposedOwner
  | arithmeticOverflow
  | arithmeticUnderflow
  | insufficientBalance
  | tokenMismatch
  | invalidRemainingAccounts
  | accountValidationFailed
  | unauthorized
  | invalidChainSelector
  | notImplemented
  | invalidMessage
  | invalidSignature
  | invalidTokenAddress
  | invalidReceiverAddress
  | invalidMessageId
  | invalidAmount
  | invalidTokenAmount
  | invalidMessageData
  | invalidDestinationChain
  | invalidTokenAccountOwner
  | missingTokenExtension
  | unsupportedTokenProgram
deriving DecidableEq, Repr

/-- Every way a `ccip_receive` instruction can abort: a program error from
`CCIPReceiverError`, an Anchor account-constraint failure, a failed
`Account::try_from` conversion, an arithmetic-overflow panic
(`overflow-checks = true`), or rejection of the transfer sub-call by the
token program. -/
inductive Err where
  | ccip : CCIPReceiverError → Err
  | constraintSeeds
  | accountNotSigner
  | accountConversionFailed
  | overflowPanic
  | transferFailed
deriving DecidableEq, Repr

/-- `MessageType` from `state.rs`. -/
inductive MessageType where
  | tokenTransfer
  | arbitraryMessaging
  | programmaticTokenTransfer
deriving DecidableEq, Repr

/-- `SVMTokenAmount` from `state.rs`: a token mint and a `u64` amount. -/
structure SVMTokenAmount where
  token : Pubkey
  amount : Nat
deriving DecidableEq, Repr

/-- `Any2SVMMessage` from `state.rs`.  Byte strings are `List Nat`. -/
structure Any2SVMMessage where
  messageId : List Nat
  sourceChainSelector : Nat
  sender : List Nat
  data : List Nat
  tokenAmounts : List SVMTokenAmount
deriving DecidableEq, Repr

/-- `ReceivedMessage` from `state.rs`. -/
structure ReceivedMessage where
  messageId : List Nat
  messageType : MessageType
  data : List Nat
  tokenAmounts : List SVMTokenAmount
  receivedTimestamp : Int
  sourceChainSelector : Nat
  sender : List Nat
deriving DecidableEq, Repr

/-- The Rust `Default` value of `ReceivedMessage` (zeroed fields, default
`MessageType::TokenTransfer`). -/
def ReceivedMessage.defaultValue : ReceivedMessage :=
  { messageId := List.replicate 32 0
    messageType := .tokenTransfer
    data := []
    tokenAmounts := []
    receivedTimestamp := 0
    sourceChainSelector := 0
    sender := [] }

/-- `BaseState` from `state.rs`: owner and registered router. -/
structure BaseState where
  owner : Pubkey
  router : Pubkey
deriving DecidableEq, Repr

/-- `MessagesStorage` from `state.rs`. -/
structure MessagesStorage where
  lastUpdated : Int
  messageCount : Nat
  latestMessage : ReceivedMessage
deriving DecidableEq, Repr

/-- The message-classification expression of `ccip_receive_handler`
(`instructions/ccip_receive.rs` lines 96-102, identical in `lib.rs`):
`!data.is_empty() && token_amounts.len() > 0` gives
`ProgrammaticTokenTransfer`, `!data.is_empty()` gives `ArbitraryMessaging`,
otherwise `TokenTransfer`. -/
def classifyMessage (data : List Nat) (tokenAmounts : List SVMTokenAmount) : MessageType :=
  if ¬ data.isEmpty ∧ tokenAmounts.length > 0 then .programmaticTokenTransfer
  else if ¬ data.isEmpty then .arbitraryMessaging
  else .tokenTransfer

/-- An account as seen by the instruction: its address, the program that
owns it, and whether it signed the transaction. -/
structure AccountMeta where
  key : Pubkey
  owner : Pubkey
  isSigner : Bool
deriving DecidableEq, Repr

/-- One attempted `token::transfer` cross-program sub-call: the token
program invoked and the accounts and amount passed to it. -/
structure TransferCall where
  tokenProgram : Pubkey
  source : Pubkey
  destination : Pubkey
  authority : Pubkey
  amount : Nat
deriving DecidableEq, Repr

instance {ε α : Type} [DecidableEq ε] [DecidableEq α] : DecidableEq (Except ε α) := by
  intro a b
  cases a <;> cases b
  case error.error e f =>
    cases (inferInstance : Decidable (e = f)) with
    | isTrue h => exact isTrue (by rw [h])
    | isFalse h => exact isFalse (by intro hc; cases hc; exact h rfl)
  case ok.ok x y =>
    cases (inferInstance : Decidable (x = y)) with
    | isTrue h => exact isTrue (by rw [h])
    | isFalse h => exact isFalse (by intro hc; cases hc; exact h rfl)
  case error.ok e x => exact isFalse (by intro hc; cases hc)
  case ok.error x e => exact isFalse (by intro hc; cases hc)

/-- The outcome of one `ccip_receive` invocation: the instruction result
(new storage on success, abort reason on error) together with the list of
transfer sub-calls that were attempted before it returned. -/
structure RunResult where
  result : Except Err MessagesStorage
  attempted : List TransferCall
deriving DecidableEq, Repr

/-- The storage the runtime persists after the call: the new storage if the
instruction succeeded, the untouched pre-call storage if it aborted (Solana
rolls back every write of a failed instruction). -/
def RunResult.finalStorage (r : RunResult) (pre : MessagesStorage) : MessagesStorage :=
  match r.result with
  | .ok s => s
  | .error _ => pre

/-- The Anchor account constraints of the `CcipReceive` context
(`context.rs` lines 67-114, identical in `lib.rs`), in declaration order:

1. `authority` must be the PDA of seeds
   `[EXTERNAL_EXECUTION_CONFIG_SEED, crate::ID]` under the
   `offramp_program` key, and must have signed;
2. `allowed_offramp` must be the PDA of seeds
   `[ALLOWED_OFFRAMP, source_chain_selector.to_le_bytes(), offramp_program]`
   under `state.router`, and must be owned by `state.router`
   (`owner = state.router @ CCIPReceiverError::InvalidCaller`).

`state` and `messages_storage` are the program's own `[STATE_SEED]` /
`[MESSAGES_STORAGE_SEED]` PDAs; their contents are passed in directly.
Returns `none` when all checks pass, `some e` with the first failure
otherwise. -/
def verifyCcipReceiveAccounts (st : BaseState)
    (authority offrampProgram allowedOfframp : AccountMeta)
    (message : Any2SVMMessage) : Option Err :=
  if authority.key ≠
      .pda2 EXTERNAL_EXECUTION_CONFIG_SEED ccipReceiverProgramId offrampProgram.key then
    some .constraintSeeds
  else if ¬ authority.isSigner then
    some .accountNotSigner
  else if allowedOfframp.key ≠
      .pda3 ALLOWED_OFFRAMP message.sourceChainSelector offrampProgram.key st.router then
    some .constraintSeeds
  else if allowedOfframp.owner ≠ st.router then
    some (.ccip .invalidCaller)
  else
    none

/-- The storage update at the end of both handlers (`ccip_receive.rs` lines
168-181, `lib.rs` lines 215-228): overwrite `latest_message`, increment
`message_count`, refresh the timestamps.  The unchecked `+= 1` on a `u64`
panics (aborting the call) if the counter would exceed `2^64 - 1`. -/
def recordMessage (storage : MessagesStorage) (message : Any2SVMMessage)
    (messageType : MessageType) (now : Int) : Except Err MessagesStorage :=
  if storage.messageCount + 1 < 2 ^ 64 then
    .ok { lastUpdated := now
          messageCount := storage.messageCount + 1
          latestMessage :=
            { messageId := message.messageId
              messageType := messageType
              data := message.data
              tokenAmounts := message.tokenAmounts
              receivedTimestamp := now
              sourceChainSelector := message.sourceChainSelector
              sender := message.sender } }
  else
    .error .overflowPanic

instance : Inhabited AccountMeta :=
  ⟨{ key := .raw 0, owner := .raw 0, isSigner := false }⟩

/-- The transfer sub-call the scalar-variant handler builds from the
remaining accounts (`instructions/ccip_receive.rs` lines 117-158): account
1 is the vault (source), account 3 the recipient, account 2 the vault
authority, account 4 the token program; the amount is the caller-supplied
`token_amount` argument.  Indexing happens only after the handler has
checked `remaining.length = 5`. -/
def mkScalarTransferCall (remaining : List AccountMeta) (tokenAmount : Nat) :
    TransferCall :=
  { tokenProgram := (remaining.getD 4 default).key
    source := (remaining.getD 1 default).key
    destination := (remaining.getD 3 default).key
    authority := (remaining.getD 2 default).key
    amount := tokenAmount }

/-- The scalar-variant handler body (`instructions/ccip_receive.rs` lines
78-191): classify the message; if `token_amount > 0` and the type is
`TokenTransfer` or `ProgrammaticTokenTransfer`, require exactly 5 remaining
accounts (`InvalidRemainingAccounts` otherwise), build the transfer from
accounts 1 (vault), 3 (recipient), 2 (vault authority) and 4 (token
program), and attempt it (`?` aborts the call if the token program rejects
it); finally record the message. -/
def ccipReceiveScalarHandler (storage : MessagesStorage) (message : Any2SVMMessage)
    (tokenAmount : Nat) (remaining : List AccountMeta)
    (transferAccepts : TransferCall → Bool) (now : Int) : RunResult :=
  let messageType := classifyMessage message.data message.tokenAmounts
  if tokenAmount > 0 ∧
      (messageType = .tokenTransfer ∨ messageType = .programmaticTokenTransfer) then
    if remaining.length ≠ 5 then
      { result := .error (.ccip .invalidRemainingAccounts), attempted := [] }
    else
      let call := mkScalarTransferCall remaining tokenAmount
      if transferAccepts call then
        { result := recordMessage storage message messageType now, attempted := [call] }
      else
        { result := .error .transferFailed, attempted := [call] }
  else
    { result := recordMessage storage message messageType now, attempted := [] }

/-- One full scalar-variant `ccip_receive` invocation: the Anchor account
constraints run first (no handler code and no storage write happens when
they fail), then the handler body. -/
def ccipReceiveScalar (st : BaseState) (storage : MessagesStorage)
    (authority offrampProgram allowedOfframp : AccountMeta)
    (message : Any2SVMMessage) (tokenAmount : Nat) (remaining : List AccountMeta)
    (transferAccepts : TransferCall → Bool) (now : Int) : RunResult :=
  match verifyCcipReceiveAccounts st authority offrampProgram allowedOfframp message with
  | some e => { result := .error e, attempted := [] }
  | none => ccipReceiveScalarHandler storage message tokenAmount remaining transferAccepts now

/-- The decoded contents of a remaining account as the list-variant handler
sees them through `Account::try_from`: a mint account, an SPL token account
(with its mint), this program's `TokenMetadata` account, or anything
else. -/
inductive AccountData where
  | undecoded
  | mintAccount
  | tokenAccount (mint : Pubkey)
  | tokenMetadata (mint : Pubkey) (balance totalReceived totalWithdrawn : Nat)
      (lastUpdated : Int)
deriving DecidableEq, Repr

/-- An account together with its decoded data, for the list-variant
remaining accounts. -/
structure AccountInfo where
  key : Pubkey
  owner : Pubkey
  data : AccountData
deriving DecidableEq, Repr

/-- The per-token loop body of the list-variant handler (`lib.rs` lines
114-212), processing chunks of 6 remaining accounts in step with the
`token_amounts` vector: skip zero amounts; convert mint, metadata, vault
and recipient through `Account::try_from` (owner and data-layout checks);
require the three mint-match checks (`TokenMismatch`); require the metadata
address to equal `create_program_address([TOKEN_METADATA_SEED, mint, state
bump], crate::ID)` (`AccountValidationFailed` — the code reuses
`ctx.bumps.state` here); `checked_add` the running total
(`ArithmeticOverflow`); then attempt the transfer.  Returns the abort
reason, if any, and every transfer sub-call attempted. -/
def processTokens (stateBump : Nat) (transferAccepts : TransferCall → Bool) :
    List Nat → List AccountInfo → Option Err × List TransferCall
  | [], _ => (none, [])
  | tokenAmount :: restAmounts,
      tokenMint :: tokenMetadataInfo :: tokenVault :: tokenVaultAuthority ::
        recipientAccount :: tokenProgram :: restAccounts =>
    if tokenAmount = 0 then
      processTokens stateBump transferAccepts restAmounts restAccounts
    else if tokenMint.owner ≠ splTokenProgramId ∨ tokenMint.data ≠ .mintAccount then
      (some .accountConversionFailed, [])
    else
      match tokenMetadataInfo.data with
      | .tokenMetadata metaMint _metaBalance metaTotalReceived _metaWithdrawn _metaUpdated =>
        if tokenMetadataInfo.owner ≠ ccipReceiverProgramId then
          (some .accountConversionFailed, [])
        else
          match tokenVault.data, recipientAccount.data with
          | .tokenAccount vaultMint, .tokenAccount recipientMint =>
            if tokenVault.owner ≠ splTokenProgramId ∨
                recipientAccount.owner ≠ splTokenProgramId then
              (some .accountConversionFailed, [])
            else if metaMint ≠ tokenMint.key then
              (some (.ccip .tokenMismatch), [])
            else if vaultMint ≠ tokenMint.key then
              (some (.ccip .tokenMismatch), [])
            else if recipientMint ≠ tokenMint.key then
              (some (.ccip .tokenMismatch), [])
            else if Pubkey.pda2b TOKEN_METADATA_SEED tokenMint.key stateBump
                ccipReceiverProgramId ≠ tokenMetadataInfo.key then
              (some (.ccip .accountValidationFailed), [])
            else if ¬ metaTotalReceived + tokenAmount < 2 ^ 64 then
              (some (.ccip .arithmeticOverflow), [])
            else
              let call : TransferCall :=
                { tokenProgram := tokenProgram.key
                  source := tokenVault.key
                  destination := recipientAccount.key
                  authority := tokenVaultAuthority.key
                  amount := tokenAmount }
              if transferAccepts call then
                let rest := processTokens stateBump transferAccepts restAmounts restAccounts
                (rest.1, call :: rest.2)
              else
                (some .transferFailed, [call])
          | _, _ => (some .accountConversionFailed, [])
      | _ => (some .accountConversionFailed, [])
  | _ :: _, _ => (some .accountConversionFailed, [])

/-- The list-variant handler body (`lib.rs` lines 73-238): classify the
message; if the `token_amounts` argument is nonempty and the type is
`TokenTransfer` or `ProgrammaticTokenTransfer`, require the
remaining-accounts list to hold exactly `6 * token_amounts.len()` accounts
(`InvalidRemainingAccounts` otherwise) and run the per-token loop; finally
record the message. -/
def ccipReceiveListHandler (storage : MessagesStorage) (message : Any2SVMMessage)
    (tokenAmounts : List Nat) (remaining : List AccountInfo) (stateBump : Nat)
    (transferAccepts : TransferCall → Bool) (now : Int) : RunResult :=
  let messageType := classifyMessage message.data message.tokenAmounts
  if ¬ tokenAmounts.isEmpty ∧
      (messageType = .tokenTransfer ∨ messageType = .programmaticTokenTransfer) then
    if remaining.length ≠ tokenAmounts.length * 6 then
      { result := .error (.ccip .invalidRemainingAccounts), attempted := [] }
    else
      match processTokens stateBump transferAccepts tokenAmounts remaining with
      | (some e, calls) => { result := .error e, attempted := calls }
      | (none, calls) =>
        { result := recordMessage storage message messageType now, attempted := calls }
  else
    { result := recordMessage storage message messageType now, attempted := [] }

/-- One full list-variant `ccip_receive` invocation (`lib.rs`): the same
`CcipReceive` account constraints, then the list-variant handler body. -/
def ccipReceiveList (st : BaseState) (storage : MessagesStorage)
    (authority offrampProgram allowedOfframp : AccountMeta)
    (message : Any2SVMMessage) (tokenAmounts : List Nat) (remaining : List AccountInfo)
    (stateBump : Nat) (transferAccepts : TransferCall → Bool) (now : Int) : RunResult :=
  match verifyCcipReceiveAccounts st authority offrampProgram allowedOfframp message with
  | some e => { result := .error e, attempted := [] }
  | none =>
    ccipReceiveListHandler storage message tokenAmounts remaining stateBump
      transferAccepts now

/-- The whole persisted state of the receiver program: the `BaseState`
configuration account and the `MessagesStorage` account. -/
structure ProgramState where
  base : BaseState
  storage : MessagesStorage
deriving DecidableEq, Repr

/-- The relaxed-variant `initialize`: the `Initialize` context of
`context.rs` (lines 13-62) declares `state`, `messages_storage` and
`token_admin` with `init_if_needed` and gates nothing on a previous owner —
any signer may call it, whether or not the program is already initialized —
and the handler (`instructions/initialize.rs` lines 61-79) then sets
`state.owner` to the signer, `state.router` to the argument, resets
`message_count` to 0 and refreshes `last_updated`.  `latest_message` is not
written by the handler: a fresh account starts at the zeroed default, an
existing account keeps its previous value. -/
def initializeRelaxed (pre : Option ProgramState) (payer : AccountMeta)
    (router : Pubkey) (now : Int) : Except Err ProgramState :=
  if ¬ payer.isSigner then
    .error .accountNotSigner
  else
    .ok { base := { owner := payer.key, router := router }
          storage :=
            { lastUpdated := now
              messageCount := 0
              latestMessage :=
                match pre with
                | some p => p.storage.latestMessage
                | none => ReceivedMessage.defaultValue } }

/-- The classification table exactly as the specification words it (spec
§4.2): both non-empty gives `DataAndToken` (`ProgrammaticTokenTransfer`),
only the payload non-empty gives `DataOnly` (`ArbitraryMessaging`), and
otherwise — tokens only, or both empty — `TokenOnly` (`TokenTransfer`).
Written from the specification for the refinement theorem of claim C5. -/
def classifySpecModel (payload : List Nat) (tokenTransfers : List SVMTokenAmount) :
    MessageType :=
  match payload.isEmpty, tokenTransfers.isEmpty with
  | false, false => .programmaticTokenTransfer
  | false, true => .arbitraryMessaging
  | true, false => .tokenTransfer
  | true, true => .tokenTransfer

/-! ### Concrete fixtures used by witnesses and counterexamples -/

/-- A sample registered router key. -/
def sampleRouter : Pubkey := .raw 7

/-- A sample offramp program key. -/
def sampleOfframpKey : Pubkey := .raw 5

/-- The offramp program account of the sample calls. -/
def sampleOfframp : AccountMeta :=
  { key := sampleOfframpKey, owner := .raw 9, isSigner := false }

/-- The relay-authority account of the sample calls: the correctly derived
external-execution-config PDA, signing. -/
def sampleAuthority : AccountMeta :=
  { key := .pda2 EXTERNAL_EXECUTION_CONFIG_SEED ccipReceiverProgramId sampleOfframpKey
    owner := sampleOfframpKey
    isSigner := true }

/-- The sample `BaseState` configuration: router registered as
`sampleRouter`. -/
def sampleState : BaseState := { owner := .raw 3, router := sampleRouter }

/-- A provisioned allowlist-membership account for source chain 1 and the
sample offramp: correctly derived and owned by the router. -/
def sampleAllowedOfframp : AccountMeta :=
  { key := .pda3 ALLOWED_OFFRAMP 1 sampleOfframpKey sampleRouter
    owner := sampleRouter
    isSigner := false }

/-- The same allowlist address when the router never created the account:
it is still owned by the system program. -/
def missingAllowedOfframp : AccountMeta :=
  { key := .pda3 ALLOWED_OFFRAMP 1 sampleOfframpKey sampleRouter
    owner := systemProgramId
    isSigner := false }

/-- A sample pre-call storage with 4 previously recorded messages. -/
def sampleStorage : MessagesStorage :=
  { lastUpdated := 100, messageCount := 4, latestMessage := ReceivedMessage.defaultValue }

/-- A token-only sample message from source chain 1. -/
def msgTokenOnly : Any2SVMMessage :=
  { messageId := List.replicate 32 0
    sourceChainSelector := 1
    sender := List.replicate 20 2
    data := []
    tokenAmounts := [{ token := .raw 11, amount := 1000 }] }

/-- A data-only sample message from source chain 1. -/
def msgDataOnly : Any2SVMMessage :=
  { messageId := List.replicate 32 0
    sourceChainSelector := 1
    sender := List.replicate 20 2
    data := [1, 2, 3]
    tokenAmounts := [] }

/-- A token program oracle that accepts every transfer. -/
def acceptAll : TransferCall → Bool := fun _ => true

/-- A token program oracle that rejects every transfer. -/
def rejectAll : TransferCall → Bool := fun _ => false

/-- A well-formed 5-account remaining list for the scalar variant: mint,
vault, vault authority, recipient, token program. -/
def remaining5 : List AccountMeta :=
  [{ key := .raw 11, owner := splTokenProgramId, isSigner := false },
   { key := .raw 21, owner := splTokenProgramId, isSigner := false },
   { key := .raw 22, owner := .raw 0, isSigner := false },
   { key := .raw 23, owner := splTokenProgramId, isSigner := false },
   { key := splTokenProgramId, owner := .raw 0, isSigner := false }]

/-- A 5-account remaining list whose vault (index 1) and recipient (index
3) are owned by programs other than the token program supplied at index
4. -/
def remaining5BadOwners : List AccountMeta :=
  [{ key := .raw 11, owner := splTokenProgramId, isSigner := false },
   { key := .raw 21, owner := .raw 99, isSigner := false },
   { key := .raw 22, owner := .raw 0, isSigner := false },
   { key := .raw 23, owner := .raw 98, isSigner := false },
   { key := splTokenProgramId, owner := .raw 0, isSigner := false }]

/-- The sample token mint key. -/
def sampleMintKey : Pubkey := .raw 11

/-- A well-formed 6-account chunk for the list variant under state bump
255: mint, token metadata (correctly derived and owned by this program),
vault, vault authority, recipient, token program. -/
def remaining6 : List AccountInfo :=
  [{ key := sampleMintKey, owner := splTokenProgramId, data := .mintAccount },
   { key := .pda2b TOKEN_METADATA_SEED sampleMintKey 255 ccipReceiverProgramId
     owner := ccipReceiverProgramId
     data := .tokenMetadata sampleMintKey 0 0 0 0 },
   { key := .raw 21, owner := splTokenProgramId, data := .tokenAccount sampleMintKey },
   { key := .raw 22, owner := .raw 0, data := .undecoded },
   { key := .raw 23, owner := splTokenProgramId, data := .tokenAccount sampleMintKey },
   { key := splTokenProgramId, owner := .raw 0, data := .undecoded }]

/-- The transfer sub-calls attempted by the scalar handler, characterised:
exactly one call — built from the remaining accounts and the caller-supplied
amount — when the amount is nonzero, the classified type is a token-bearing
one and the remaining-accounts list has length 5; none otherwise. -/
theorem scalarHandler_attempted_eq (storage : MessagesStorage) (message : Any2SVMMessage)
    (tokenAmount : Nat) (remaining : List AccountMeta)
    (transferAccepts : TransferCall → Bool) (now : Int) :
    (ccipReceiveScalarHandler storage message tokenAmount remaining transferAccepts now).attempted =
      if 0 < tokenAmount ∧
          (classifyMessage message.data message.tokenAmounts = .tokenTransfer ∨
            classifyMessage message.data message.tokenAmounts = .programmaticTokenTransfer) ∧
          remaining.length = 5 then
        [mkScalarTransferCall remaining tokenAmount]
      else [] := by
  by_cases h1 : 0 < tokenAmount ∧
      (classifyMessage message.data message.tokenAmounts = .tokenTransfer ∨
        classifyMessage message.data message.tokenAmounts = .programmaticTokenTransfer)
  · by_cases h2 : remaining.length = 5
    · by_cases h3 : transferAccepts (mkScalarTransferCall remaining tokenAmount) <;>
        simp [ccipReceiveScalarHandler, h1.1, h1.2, h2, h3]
    · simp [ccipReceiveScalarHandler, h1.1, h1.2, h2]
  · have h2 : ¬ (0 < tokenAmount ∧
        (classifyMessage message.data message.tokenAmounts = .tokenTransfer ∨
          classifyMessage message.data message.tokenAmounts = .programmaticTokenTransfer) ∧
        remaining.length = 5) := fun hc => h1 ⟨hc.1, hc.2.1⟩
    simp [ccipReceiveScalarHandler, h1, h2]

/-- `recordMessage` succeeds only by incrementing the counter by exactly
one (and refreshing the timestamp and latest message). -/
theorem recordMessage_ok (storage : MessagesStorage) (message : Any2SVMMessage)
    (messageType : MessageType) (now : Int) (post : MessagesStorage)
    (h : recordMessage storage message messageType now = .ok post) :
    post.messageCount = storage.messageCount + 1 ∧
      storage.messageCount + 1 < 2 ^ 64 ∧
      post.lastUpdated = now ∧
      post.latestMessage.messageType = messageType := by
  unfold recordMessage at h
  split at h
  · cases h
    refine ⟨rfl, by assumption, rfl, rfl⟩
  · cases h

/-- Every successful scalar-handler run went through `recordMessage` on the
classified message type. -/
theorem scalarHandler_ok_recordMessage (storage : MessagesStorage)
    (message : Any2SVMMessage) (tokenAmount : Nat) (remaining : List AccountMeta)
    (transferAccepts : TransferCall → Bool) (now : Int) (post : MessagesStorage)
    (h : (ccipReceiveScalarHandler storage message tokenAmount remaining
        transferAccepts now).result = .ok post) :
    recordMessage storage message
      (classifyMessage message.data message.tokenAmounts) now = .ok post := by
  by_cases h1 : tokenAmount > 0 ∧
      (classifyMessage message.data message.tokenAmounts = .tokenTransfer ∨
        classifyMessage message.data message.tokenAmounts = .programmaticTokenTransfer)
  · by_cases h2 : remaining.length = 5
    · by_cases h3 : transferAccepts (mkScalarTransferCall remaining tokenAmount)
      · simpa [ccipReceiveScalarHandler, h1.1, h1.2, h2, h3] using h
      · simp [ccipReceiveScalarHandler, h1.1, h1.2, h2, h3] at h
    · simp [ccipReceiveScalarHandler, h1.1, h1.2, h2] at h
  · simpa [ccipReceiveScalarHandler, h1] using h

/-- Every successful full scalar run passed account verification and went
through `recordMessage`. -/
theorem ccipReceiveScalar_ok (st : BaseState) (storage : MessagesStorage)
    (authority offrampProgram allowedOfframp : AccountMeta)
    (message : Any2SVMMessage) (tokenAmount : Nat) (remaining : List AccountMeta)
    (transferAccepts : TransferCall → Bool) (now : Int) (post : MessagesStorage)
    (h : (ccipReceiveScalar st storage authority offrampProgram allowedOfframp message
        tokenAmount remaining transferAccepts now).result = .ok post) :
    recordMessage storage message
      (classifyMessage message.data message.tokenAmounts) now = .ok post := by
  unfold ccipReceiveScalar at h
  cases hv : verifyCcipReceiveAccounts st authority offrampProgram allowedOfframp message with
  | some e => rw [hv] at h; cases h
  | none =>
    rw [hv] at h
    exact scalarHandler_ok_recordMessage _ _ _ _ _ _ _ h

/-! ### Claims -/

/-- Claim C1: if the relay-authority checks pass but the allowlist-membership
PDA (derived from the `allowed_offramp` label, the source chain selector and
the offramp key under the registered router) is not owned by `state.router` —
as when the router never created it — then `ccip_receive` fails with
`InvalidCaller`, the persisted `MessagesStorage` is unchanged, and no token
transfer sub-call occurs. -/
theorem ccipReceive_unallowed_offramp_fails_invalidCaller
    (st : BaseState) (storage : MessagesStorage)
    (authority offrampProgram allowedOfframp : AccountMeta)
    (message : Any2SVMMessage) (tokenAmount : Nat) (remaining : List AccountMeta)
    (transferAccepts : TransferCall → Bool) (now : Int) (r : RunResult)
    (hr : r = ccipReceiveScalar st storage authority offrampProgram allowedOfframp
        message tokenAmount remaining transferAccepts now)
    (hAuthKey : authority.key =
        .pda2 EXTERNAL_EXECUTION_CONFIG_SEED ccipReceiverProgramId offrampProgram.key)
    (hSigner : authority.isSigner = true)
    (hPdaKey : allowedOfframp.key =
        .pda3 ALLOWED_OFFRAMP message.sourceChainSelector offrampProgram.key st.router)
    (hOwner : allowedOfframp.owner ≠ st.router) :
    r.result = .error (.ccip .invalidCaller) ∧
      r.finalStorage storage = storage ∧
      r.attempted = [] := by
  have hv : verifyCcipReceiveAccounts st authority offrampProgram allowedOfframp message =
      some (.ccip .invalidCaller) := by
    simp [verifyCcipReceiveAccounts, hAuthKey, hSigner, hPdaKey, hOwner]
  subst hr
  simp [ccipReceiveScalar, hv, RunResult.finalStorage]

/-- Witness for C1 at a concrete call: allowlist account never created (owned
by the system program). -/
theorem ccipReceive_unallowed_offramp_fails_invalidCaller_witness :
    (ccipReceiveScalar sampleState sampleStorage sampleAuthority sampleOfframp
        missingAllowedOfframp msgTokenOnly 1000 remaining5 acceptAll 200).result =
        .error (.ccip .invalidCaller) ∧
      (ccipReceiveScalar sampleState sampleStorage sampleAuthority sampleOfframp
        missingAllowedOfframp msgTokenOnly 1000 remaining5 acceptAll 200).finalStorage
        sampleStorage = sampleStorage ∧
      (ccipReceiveScalar sampleState sampleStorage sampleAuthority sampleOfframp
        missingAllowedOfframp msgTokenOnly 1000 remaining5 acceptAll 200).attempted = [] :=
  ccipReceive_unallowed_offramp_fails_invalidCaller sampleState sampleStorage
    sampleAuthority sampleOfframp missingAllowedOfframp msgTokenOnly 1000 remaining5
    acceptAll 200 _ rfl (by decide) (by decide) (by decide) (by decide)

/-- Claim C2: whenever any of the Capability Verifier account checks fails
(relay-authority PDA derivation, signer check, allowlist-membership
derivation or ownership), `ccip_receive` aborts with an error and the
persisted `MessagesStorage` is unchanged: `message_count`, `last_updated`
and `latest_message` all keep their pre-call values, and no transfer is
attempted. -/
theorem ccipReceive_failed_verification_leaves_storage
    (st : BaseState) (storage : MessagesStorage)
    (authority offrampProgram allowedOfframp : AccountMeta)
    (message : Any2SVMMessage) (tokenAmount : Nat) (remaining : List AccountMeta)
    (transferAccepts : TransferCall → Bool) (now : Int) (r : RunResult) (e : Err)
    (hr : r = ccipReceiveScalar st storage authority offrampProgram allowedOfframp
        message tokenAmount remaining transferAccepts now)
    (hfail : verifyCcipReceiveAccounts st authority offrampProgram allowedOfframp
        message = some e) :
    r.result = .error e ∧
      r.finalStorage storage = storage ∧
      (r.finalStorage storage).messageCount = storage.messageCount ∧
      (r.finalStorage storage).lastUpdated = storage.lastUpdated ∧
      (r.finalStorage storage).latestMessage = storage.latestMessage ∧
      r.attempted = [] := by
  subst hr
  simp [ccipReceiveScalar, hfail, RunResult.finalStorage]

/-- Witness for C2 at a concrete call: the authority PDA did not sign. -/
theorem ccipReceive_failed_verification_leaves_storage_witness :
    (ccipReceiveScalar sampleState sampleStorage
        { sampleAuthority with isSigner := false } sampleOfframp sampleAllowedOfframp
        msgTokenOnly 1000 remaining5 acceptAll 200).result = .error .accountNotSigner ∧
      (ccipReceiveScalar sampleState sampleStorage
        { sampleAuthority with isSigner := false } sampleOfframp sampleAllowedOfframp
        msgTokenOnly 1000 remaining5 acceptAll 200).finalStorage sampleStorage =
        sampleStorage ∧
      ((ccipReceiveScalar sampleState sampleStorage
        { sampleAuthority with isSigner := false } sampleOfframp sampleAllowedOfframp
        msgTokenOnly 1000 remaining5 acceptAll 200).finalStorage
        sampleStorage).messageCount = sampleStorage.messageCount ∧
      ((ccipReceiveScalar sampleState sampleStorage
        { sampleAuthority with isSigner := false } sampleOfframp sampleAllowedOfframp
        msgTokenOnly 1000 remaining5 acceptAll 200).finalStorage
        sampleStorage).lastUpdated = sampleStorage.lastUpdated ∧
      ((ccipReceiveScalar sampleState sampleStorage
        { sampleAuthority with isSigner := false } sampleOfframp sampleAllowedOfframp
        msgTokenOnly 1000 remaining5 acceptAll 200).finalStorage
        sampleStorage).latestMessage = sampleStorage.latestMessage ∧
      (ccipReceiveScalar sampleState sampleStorage
        { sampleAuthority with isSigner := false } sampleOfframp sampleAllowedOfframp
        msgTokenOnly 1000 remaining5 acceptAll 200).attempted = [] :=
  ccipReceive_failed_verification_leaves_storage sampleState sampleStorage
    { sampleAuthority with isSigner := false } sampleOfframp sampleAllowedOfframp
    msgTokenOnly 1000 remaining5 acceptAll 200 _ .accountNotSigner rfl (by decide)

/-- Every successful list-variant handler run went through `recordMessage`
on the classified message type. -/
theorem listHandler_ok_recordMessage (storage : MessagesStorage)
    (message : Any2SVMMessage) (tokenAmounts : List Nat)
    (remaining : List AccountInfo) (stateBump : Nat)
    (transferAccepts : TransferCall → Bool) (now : Int) (post : MessagesStorage)
    (h : (ccipReceiveListHandler storage message tokenAmounts remaining stateBump
        transferAccepts now).result = .ok post) :
    recordMessage storage message
      (classifyMessage message.data message.tokenAmounts) now = .ok post := by
  by_cases h1 : ¬ tokenAmounts.isEmpty ∧
      (classifyMessage message.data message.tokenAmounts = .tokenTransfer ∨
        classifyMessage message.data message.tokenAmounts = .programmaticTokenTransfer)
  · by_cases h2 : remaining.length = tokenAmounts.length * 6
    · cases hp : processTokens stateBump transferAccepts tokenAmounts remaining with
      | mk e calls =>
        cases e with
        | some f => simp [ccipReceiveListHandler, h1.1, h1.2, h2, hp] at h
        | none => simpa [ccipReceiveListHandler, h1.1, h1.2, h2, hp] using h
    · simp [ccipReceiveListHandler, h1.1, h1.2, h2] at h
  · have h1a : ¬ (¬ tokenAmounts = [] ∧
        (classifyMessage message.data message.tokenAmounts = .tokenTransfer ∨
          classifyMessage message.data message.tokenAmounts =
            .programmaticTokenTransfer)) := by
      simpa using h1
    simpa [ccipReceiveListHandler, h1a] using h

/-- Every successful full list-variant run passed account verification and
went through `recordMessage`. -/
theorem ccipReceiveList_ok (st : BaseState) (storage : MessagesStorage)
    (authority offrampProgram allowedOfframp : AccountMeta)
    (message : Any2SVMMessage) (tokenAmounts : List Nat)
    (remaining : List AccountInfo) (stateBump : Nat)
    (transferAccepts : TransferCall → Bool) (now : Int) (post : MessagesStorage)
    (h : (ccipReceiveList st storage authority offrampProgram allowedOfframp message
        tokenAmounts remaining stateBump transferAccepts now).result = .ok post) :
    recordMessage storage message
      (classifyMessage message.data message.tokenAmounts) now = .ok post := by
  unfold ccipReceiveList at h
  cases hv : verifyCcipReceiveAccounts st authority offrampProgram allowedOfframp message with
  | some e => rw [hv] at h; cases h
  | none =>
    rw [hv] at h
    exact listHandler_ok_recordMessage _ _ _ _ _ _ _ _ h

/-- Claim C3: every accepted `ccip_receive` call (one whose result is
success), in the scalar variant and in the list variant alike, leaves
`message_count` at exactly its pre-call value plus 1 — in particular the
counter strictly increases and skips no value.  (The increment is an
unchecked `u64 += 1` compiled with `overflow-checks = true`, so a call that
would overflow aborts instead of being accepted.) -/
theorem ccipReceive_accepted_increments_count_by_one :
    (∀ (st : BaseState) (storage : MessagesStorage)
        (authority offrampProgram allowedOfframp : AccountMeta)
        (message : Any2SVMMessage) (tokenAmount : Nat) (remaining : List AccountMeta)
        (transferAccepts : TransferCall → Bool) (now : Int) (post : MessagesStorage),
      (ccipReceiveScalar st storage authority offrampProgram allowedOfframp message
          tokenAmount remaining transferAccepts now).result = .ok post →
      post.messageCount = storage.messageCount + 1 ∧
        storage.messageCount < post.messageCount) ∧
    (∀ (st : BaseState) (storage : MessagesStorage)
        (authority offrampProgram allowedOfframp : AccountMeta)
        (message : Any2SVMMessage) (tokenAmounts : List Nat)
        (remaining : List AccountInfo) (stateBump : Nat)
        (transferAccepts : TransferCall → Bool) (now : Int) (post : MessagesStorage),
      (ccipReceiveList st storage authority offrampProgram allowedOfframp message
          tokenAmounts remaining stateBump transferAccepts now).result = .ok post →
      post.messageCount = storage.messageCount + 1 ∧
        storage.messageCount < post.messageCount) := by
  constructor
  · intro st storage authority offrampProgram allowedOfframp message tokenAmount
      remaining transferAccepts now post hok
    have h := ccipReceiveScalar_ok st storage authority offrampProgram allowedOfframp
      message tokenAmount remaining transferAccepts now post hok
    have h2 := recordMessage_ok storage message
      (classifyMessage message.data message.tokenAmounts) now post h
    exact ⟨h2.1, by omega⟩
  · intro st storage authority offrampProgram allowedOfframp message tokenAmounts
      remaining stateBump transferAccepts now post hok
    have h := ccipReceiveList_ok st storage authority offrampProgram allowedOfframp
      message tokenAmounts remaining stateBump transferAccepts now post hok
    have h2 := recordMessage_ok storage message
      (classifyMessage message.data message.tokenAmounts) now post h
    exact ⟨h2.1, by omega⟩

/-- Witness for C3 at concrete accepted calls of both variants: a scalar
call (amount 1000) and a list call ([1000] with a fully valid 6-account
chunk), each moving the counter from 4 to 5. -/
theorem ccipReceive_accepted_increments_count_by_one_witness :
    (({ lastUpdated := 200, messageCount := 4 + 1,
        latestMessage :=
          { messageId := List.replicate 32 0
            messageType := .tokenTransfer
            data := []
            tokenAmounts := [{ token := .raw 11, amount := 1000 }]
            receivedTimestamp := 200
            sourceChainSelector := 1
            sender := List.replicate 20 2 } } : MessagesStorage).messageCount =
        sampleStorage.messageCount + 1 ∧
      sampleStorage.messageCount <
        ({ lastUpdated := 200, messageCount := 4 + 1,
            latestMessage :=
              { messageId := List.replicate 32 0
                messageType := .tokenTransfer
                data := []
                tokenAmounts := [{ token := .raw 11, amount := 1000 }]
                receivedTimestamp := 200
                sourceChainSelector := 1
                sender := List.replicate 20 2 } } : MessagesStorage).messageCount) ∧
    (({ lastUpdated := 200, messageCount := 4 + 1,
        latestMessage :=
          { messageId := List.replicate 32 0
            messageType := .tokenTransfer
            data := []
            tokenAmounts := [{ token := .raw 11, amount := 1000 }]
            receivedTimestamp := 200
            sourceChainSelector := 1
            sender := List.replicate 20 2 } } : MessagesStorage).messageCount =
        sampleStorage.messageCount + 1 ∧
      sampleStorage.messageCount <
        ({ lastUpdated := 200, messageCount := 4 + 1,
            latestMessage :=
              { messageId := List.replicate 32 0
                messageType := .tokenTransfer
                data := []
                tokenAmounts := [{ token := .raw 11, amount := 1000 }]
                receivedTimestamp := 200
                sourceChainSelector := 1
                sender := List.replicate 20 2 } } : MessagesStorage).messageCount) :=
  ⟨ccipReceive_accepted_increments_count_by_one.1 sampleState sampleStorage
      sampleAuthority sampleOfframp sampleAllowedOfframp msgTokenOnly 1000 remaining5
      acceptAll 200 _ (by decide),
    ccipReceive_accepted_increments_count_by_one.2 sampleState sampleStorage
      sampleAuthority sampleOfframp sampleAllowedOfframp msgTokenOnly [1000] remaining6
      255 acceptAll 200 _ (by decide)⟩

/-- Claim C5: the message classification implemented by the handlers is a
pure total function of payload emptiness and token-list emptiness, and it
agrees with the specification table (`classifySpecModel`): both non-empty
gives `ProgrammaticTokenTransfer` (DataAndToken), only the payload
non-empty gives `ArbitraryMessaging` (DataOnly), and otherwise — including
both empty — `TokenTransfer` (TokenOnly). -/
theorem classifyMessage_matches_spec (data : List Nat)
    (tokenAmounts : List SVMTokenAmount) :
    classifyMessage data tokenAmounts = classifySpecModel data tokenAmounts := by
  cases data <;> cases tokenAmounts <;> simp [classifyMessage, classifySpecModel]

/-- Counterexample to claim C4 as stated: a concrete call with a nonzero
`token_amount` of 5 on a data-only message (payload `[1,2,3]`, empty token
list) attempts no transfer sub-call, yet the call is accepted and recorded —
so "a transfer is attempted if and only if the resolved token amount is
nonzero" fails in the only-if direction. -/
theorem scalar_nonzero_amount_without_transfer_cex :
    (ccipReceiveScalar sampleState sampleStorage sampleAuthority sampleOfframp
        sampleAllowedOfframp msgDataOnly 5 remaining5 acceptAll 200).attempted = [] ∧
      ((ccipReceiveScalar sampleState sampleStorage sampleAuthority sampleOfframp
        sampleAllowedOfframp msgDataOnly 5 remaining5 acceptAll 200).finalStorage
        sampleStorage).messageCount = sampleStorage.messageCount + 1 ∧
      (5 : Nat) ≠ 0 := by
  decide

/-- Claim C4 as amended: in a scalar-variant call that passes account
verification, a transfer sub-call is attempted if and only if the
caller-supplied `token_amount` is nonzero, the message classifies as
`TokenTransfer` or `ProgrammaticTokenTransfer`, and the remaining-accounts
list has length 5; and when the attempted transfer is rejected by the token
program the whole call aborts with no storage mutation. -/
theorem scalar_transfer_attempted_iff
    (st : BaseState) (storage : MessagesStorage)
    (authority offrampProgram allowedOfframp : AccountMeta)
    (message : Any2SVMMessage) (tokenAmount : Nat) (remaining : List AccountMeta)
    (transferAccepts : TransferCall → Bool) (now : Int) (r : RunResult)
    (hr : r = ccipReceiveScalar st storage authority offrampProgram allowedOfframp
        message tokenAmount remaining transferAccepts now)
    (hver : verifyCcipReceiveAccounts st authority offrampProgram allowedOfframp
        message = none) :
    (r.attempted ≠ [] ↔
      (0 < tokenAmount ∧
        (classifyMessage message.data message.tokenAmounts = .tokenTransfer ∨
          classifyMessage message.data message.tokenAmounts = .programmaticTokenTransfer) ∧
        remaining.length = 5)) ∧
    (transferAccepts (mkScalarTransferCall remaining tokenAmount) = false →
      r.attempted ≠ [] →
      r.result = .error .transferFailed ∧ r.finalStorage storage = storage) := by
  subst hr
  have hrun : ccipReceiveScalar st storage authority offrampProgram allowedOfframp
      message tokenAmount remaining transferAccepts now =
      ccipReceiveScalarHandler storage message tokenAmount remaining transferAccepts now := by
    simp [ccipReceiveScalar, hver]
  rw [hrun]
  constructor
  · rw [scalarHandler_attempted_eq]
    by_cases hc : 0 < tokenAmount ∧
        (classifyMessage message.data message.tokenAmounts = .tokenTransfer ∨
          classifyMessage message.data message.tokenAmounts = .programmaticTokenTransfer) ∧
        remaining.length = 5
    · simp [hc]
    · simp [hc]
  · intro hrej hne
    rw [scalarHandler_attempted_eq] at hne
    by_cases hc : 0 < tokenAmount ∧
        (classifyMessage message.data message.tokenAmounts = .tokenTransfer ∨
          classifyMessage message.data message.tokenAmounts = .programmaticTokenTransfer) ∧
        remaining.length = 5
    · simp [ccipReceiveScalarHandler, hc.1, hc.2.1, hc.2.2, hrej, RunResult.finalStorage]
    · simp [hc] at hne

/-- Witness for the amended C4 at a concrete call: token-only message,
amount 1000, well-shaped account list, token program rejecting the
transfer. -/
theorem scalar_transfer_attempted_iff_witness :
    ((ccipReceiveScalar sampleState sampleStorage sampleAuthority sampleOfframp
        sampleAllowedOfframp msgTokenOnly 1000 remaining5 rejectAll 200).attempted ≠ [] ↔
      (0 < 1000 ∧
        (classifyMessage msgTokenOnly.data msgTokenOnly.tokenAmounts = .tokenTransfer ∨
          classifyMessage msgTokenOnly.data msgTokenOnly.tokenAmounts =
            .programmaticTokenTransfer) ∧
        remaining5.length = 5)) ∧
    (rejectAll (mkScalarTransferCall remaining5 1000) = false →
      (ccipReceiveScalar sampleState sampleStorage sampleAuthority sampleOfframp
        sampleAllowedOfframp msgTokenOnly 1000 remaining5 rejectAll 200).attempted ≠ [] →
      (ccipReceiveScalar sampleState sampleStorage sampleAuthority sampleOfframp
        sampleAllowedOfframp msgTokenOnly 1000 remaining5 rejectAll 200).result =
        .error .transferFailed ∧
      (ccipReceiveScalar sampleState sampleStorage sampleAuthority sampleOfframp
        sampleAllowedOfframp msgTokenOnly 1000 remaining5 rejectAll 200).finalStorage
        sampleStorage = sampleStorage) :=
  scalar_transfer_attempted_iff sampleState sampleStorage sampleAuthority sampleOfframp
    sampleAllowedOfframp msgTokenOnly 1000 remaining5 rejectAll 200 _ rfl (by decide)

/-- The account-verification step can only fail with a seeds-constraint
violation, a missing signature, or `InvalidCaller`. -/
theorem verify_error_cases (st : BaseState)
    (authority offrampProgram allowedOfframp : AccountMeta)
    (message : Any2SVMMessage) (e : Err)
    (h : verifyCcipReceiveAccounts st authority offrampProgram allowedOfframp message =
      some e) :
    e = .constraintSeeds ∨ e = .accountNotSigner ∨ e = .ccip .invalidCaller := by
  unfold verifyCcipReceiveAccounts at h
  split at h
  · cases h; exact Or.inl rfl
  · split at h
    · cases h; exact Or.inr (Or.inl rfl)
    · split at h
      · cases h; exact Or.inl rfl
      · split at h
        · cases h; exact Or.inr (Or.inr rfl)
        · cases h

/-- The scalar handler can only fail with `InvalidRemainingAccounts`, a
rejected transfer, or an overflow panic. -/
theorem scalarHandler_error_cases (storage : MessagesStorage) (message : Any2SVMMessage)
    (tokenAmount : Nat) (remaining : List AccountMeta)
    (transferAccepts : TransferCall → Bool) (now : Int) (e : Err)
    (h : (ccipReceiveScalarHandler storage message tokenAmount remaining
        transferAccepts now).result = .error e) :
    e = .ccip .invalidRemainingAccounts ∨ e = .transferFailed ∨ e = .overflowPanic := by
  have hrec : ∀ mt, recordMessage storage message mt now = .error e →
      e = .ccip .invalidRemainingAccounts ∨ e = .transferFailed ∨ e = .overflowPanic := by
    intro mt hm
    unfold recordMessage at hm
    split at hm
    · cases hm
    · cases hm; exact Or.inr (Or.inr rfl)
  by_cases h1 : tokenAmount > 0 ∧
      (classifyMessage message.data message.tokenAmounts = .tokenTransfer ∨
        classifyMessage message.data message.tokenAmounts = .programmaticTokenTransfer)
  · by_cases h2 : remaining.length = 5
    · by_cases h3 : transferAccepts (mkScalarTransferCall remaining tokenAmount)
      · simp only [ccipReceiveScalarHandler, h1.1, h1.2, h2] at h
        simp [h3] at h
        exact hrec _ (by simpa using h)
      · simp only [ccipReceiveScalarHandler, h1.1, h1.2, h2] at h
        simp [h3] at h
        exact Or.inr (Or.inl h.symm)
    · simp [ccipReceiveScalarHandler, h1.1, h1.2, h2] at h
      exact Or.inl h.symm
  · simp only [ccipReceiveScalarHandler] at h
    rw [if_neg (by simpa using h1)] at h
    exact hrec _ h

/-- A full scalar run can only fail with one of: seeds violation, missing
signature, `InvalidCaller`, `InvalidRemainingAccounts`, rejected transfer,
overflow panic.  In particular `InvalidTokenAccountOwner` is never
raised. -/
theorem ccipReceiveScalar_error_cases (st : BaseState) (storage : MessagesStorage)
    (authority offrampProgram allowedOfframp : AccountMeta)
    (message : Any2SVMMessage) (tokenAmount : Nat) (remaining : List AccountMeta)
    (transferAccepts : TransferCall → Bool) (now : Int) (e : Err)
    (h : (ccipReceiveScalar st storage authority offrampProgram allowedOfframp message
        tokenAmount remaining transferAccepts now).result = .error e) :
    e = .constraintSeeds ∨ e = .accountNotSigner ∨ e = .ccip .invalidCaller ∨
      e = .ccip .invalidRemainingAccounts ∨ e = .transferFailed ∨ e = .overflowPanic := by
  unfold ccipReceiveScalar at h
  cases hv : verifyCcipReceiveAccounts st authority offrampProgram allowedOfframp message with
  | some f =>
    rw [hv] at h
    have : f = e := by simpa using h
    subst this
    rcases verify_error_cases st authority offrampProgram allowedOfframp message f hv with
      h1 | h1 | h1
    · exact Or.inl h1
    · exact Or.inr (Or.inl h1)
    · exact Or.inr (Or.inr (Or.inl h1))
  | none =>
    rw [hv] at h
    rcases scalarHandler_error_cases storage message tokenAmount remaining transferAccepts
      now e h with h1 | h1 | h1
    · exact Or.inr (Or.inr (Or.inr (Or.inl h1)))
    · exact Or.inr (Or.inr (Or.inr (Or.inr (Or.inl h1))))
    · exact Or.inr (Or.inr (Or.inr (Or.inr (Or.inr h1))))

/-- Counterexample to claim C6 as stated: a concrete scalar call whose vault
(remaining account 1, owned by program 99) and recipient (remaining account
3, owned by program 98) are not owned by the token program supplied at
index 4 — yet the call does not abort: the transfer sub-call is attempted
with exactly those handles and the message is recorded. -/
theorem scalar_no_owner_validation_cex :
    (remaining5BadOwners.getD 1 default).owner ≠ (remaining5BadOwners.getD 4 default).key ∧
      (remaining5BadOwners.getD 3 default).owner ≠
        (remaining5BadOwners.getD 4 default).key ∧
      (ccipReceiveScalar sampleState sampleStorage sampleAuthority sampleOfframp
        sampleAllowedOfframp msgTokenOnly 10 remaining5BadOwners acceptAll 200).attempted =
        [{ tokenProgram := splTokenProgramId, source := .raw 21, destination := .raw 23,
           authority := .raw 22, amount := 10 }] ∧
      ((ccipReceiveScalar sampleState sampleStorage sampleAuthority sampleOfframp
        sampleAllowedOfframp msgTokenOnly 10 remaining5BadOwners acceptAll
        200).finalStorage sampleStorage).messageCount = sampleStorage.messageCount + 1 := by
  decide

/-- Claim C6 as amended: before attempting a transfer, the scalar-variant
Resource Binder validates only that the remaining-accounts list has length
5 — failing with `InvalidRemainingAccounts`, no storage mutation and no
transfer attempted otherwise; it performs no ownership check on the custody
(vault) or recipient handles, attempting the transfer with whatever owners
they declare, and `InvalidTokenAccountOwner` is never raised. -/
theorem scalar_binder_validates_only_length
    (st : BaseState) (storage : MessagesStorage)
    (authority offrampProgram allowedOfframp : AccountMeta)
    (message : Any2SVMMessage) (tokenAmount : Nat) (remaining : List AccountMeta)
    (transferAccepts : TransferCall → Bool) (now : Int) (r : RunResult)
    (hr : r = ccipReceiveScalar st storage authority offrampProgram allowedOfframp
        message tokenAmount remaining transferAccepts now)
    (hver : verifyCcipReceiveAccounts st authority offrampProgram allowedOfframp
        message = none)
    (hAmt : 0 < tokenAmount)
    (hType : classifyMessage message.data message.tokenAmounts = .tokenTransfer ∨
      classifyMessage message.data message.tokenAmounts = .programmaticTokenTransfer) :
    (remaining.length ≠ 5 →
      r.result = .error (.ccip .invalidRemainingAccounts) ∧ r.attempted = [] ∧
        r.finalStorage storage = storage) ∧
    (remaining.length = 5 →
      r.attempted = [mkScalarTransferCall remaining tokenAmount]) ∧
    r.result ≠ .error (.ccip .invalidTokenAccountOwner) := by
  have hrun : r =
      ccipReceiveScalarHandler storage message tokenAmount remaining transferAccepts now := by
    rw [hr]; simp [ccipReceiveScalar, hver]
  refine ⟨?_, ?_, ?_⟩
  · intro hlen
    rw [hrun]
    simp [ccipReceiveScalarHandler, hAmt, hType, hlen, RunResult.finalStorage]
  · intro hlen
    rw [hrun, scalarHandler_attempted_eq]
    simp [hAmt, hType, hlen]
  · intro hbad
    subst hr
    rcases ccipReceiveScalar_error_cases st storage authority offrampProgram
      allowedOfframp message tokenAmount remaining transferAccepts now _ hbad with
      h1 | h1 | h1 | h1 | h1 | h1 <;> cases h1

/-- Witness for the amended C6 at a concrete call with mismatched vault and
recipient owners: the binder does not reject them and attempts the
transfer. -/
theorem scalar_binder_validates_only_length_witness :
    ((remaining5BadOwners.length ≠ 5 →
      (ccipReceiveScalar sampleState sampleStorage sampleAuthority sampleOfframp
        sampleAllowedOfframp msgTokenOnly 10 remaining5BadOwners acceptAll 200).result =
        .error (.ccip .invalidRemainingAccounts) ∧
      (ccipReceiveScalar sampleState sampleStorage sampleAuthority sampleOfframp
        sampleAllowedOfframp msgTokenOnly 10 remaining5BadOwners acceptAll 200).attempted =
        [] ∧
      (ccipReceiveScalar sampleState sampleStorage sampleAuthority sampleOfframp
        sampleAllowedOfframp msgTokenOnly 10 remaining5BadOwners acceptAll
        200).finalStorage sampleStorage = sampleStorage) ∧
    (remaining5BadOwners.length = 5 →
      (ccipReceiveScalar sampleState sampleStorage sampleAuthority sampleOfframp
        sampleAllowedOfframp msgTokenOnly 10 remaining5BadOwners acceptAll 200).attempted =
        [mkScalarTransferCall remaining5BadOwners 10]) ∧
    (ccipReceiveScalar sampleState sampleStorage sampleAuthority sampleOfframp
        sampleAllowedOfframp msgTokenOnly 10 remaining5BadOwners acceptAll 200).result ≠
      .error (.ccip .invalidTokenAccountOwner)) :=
  scalar_binder_validates_only_length sampleState sampleStorage sampleAuthority
    sampleOfframp sampleAllowedOfframp msgTokenOnly 10 remaining5BadOwners acceptAll 200
    _ rfl (by decide) (by decide) (by decide)

/-- Counterexample to claim C7 as stated: a concrete scalar call with
nonzero `token_amount` 1 on a data-only message and an empty
remaining-accounts list (length 0, not 5) is not rejected — the call is
accepted and recorded, because the length check only runs when the message
classifies as a token-bearing type. -/
theorem scalar_wrong_length_not_rejected_cex :
    (1 : Nat) ≠ 0 ∧
      ([] : List AccountMeta).length ≠ 5 ∧
      (ccipReceiveScalar sampleState sampleStorage sampleAuthority sampleOfframp
        sampleAllowedOfframp msgDataOnly 1 [] acceptAll 200).result ≠
        .error (.ccip .invalidRemainingAccounts) ∧
      ((ccipReceiveScalar sampleState sampleStorage sampleAuthority sampleOfframp
        sampleAllowedOfframp msgDataOnly 1 [] acceptAll 200).finalStorage
        sampleStorage).messageCount = sampleStorage.messageCount + 1 := by
  decide

/-- Claim C7 as amended: in calls that pass account verification and whose
message classifies as `TokenTransfer` or `ProgrammaticTokenTransfer`, the
Resource Binder rejects any remaining-accounts list of the wrong length
with `InvalidRemainingAccounts` before any transfer is attempted and with
no storage mutation: length ≠ 5 in the scalar variant (nonzero
`token_amount`, only the first transfer processed), length ≠ 6 per token in
the list variant (nonempty `token_amounts` argument). -/
theorem ccipReceive_wrong_length_rejected :
    (∀ (st : BaseState) (storage : MessagesStorage)
        (authority offrampProgram allowedOfframp : AccountMeta)
        (message : Any2SVMMessage) (tokenAmount : Nat) (remaining : List AccountMeta)
        (transferAccepts : TransferCall → Bool) (now : Int),
      verifyCcipReceiveAccounts st authority offrampProgram allowedOfframp message =
        none →
      0 < tokenAmount →
      (classifyMessage message.data message.tokenAmounts = .tokenTransfer ∨
        classifyMessage message.data message.tokenAmounts = .programmaticTokenTransfer) →
      remaining.length ≠ 5 →
      (ccipReceiveScalar st storage authority offrampProgram allowedOfframp message
          tokenAmount remaining transferAccepts now).result =
          .error (.ccip .invalidRemainingAccounts) ∧
        (ccipReceiveScalar st storage authority offrampProgram allowedOfframp message
          tokenAmount remaining transferAccepts now).attempted = [] ∧
        (ccipReceiveScalar st storage authority offrampProgram allowedOfframp message
          tokenAmount remaining transferAccepts now).finalStorage storage = storage) ∧
    (∀ (st : BaseState) (storage : MessagesStorage)
        (authority offrampProgram allowedOfframp : AccountMeta)
        (message : Any2SVMMessage) (tokenAmounts : List Nat)
        (remaining : List AccountInfo) (stateBump : Nat)
        (transferAccepts : TransferCall → Bool) (now : Int),
      verifyCcipReceiveAccounts st authority offrampProgram allowedOfframp message =
        none →
      tokenAmounts ≠ [] →
      (classifyMessage message.data message.tokenAmounts = .tokenTransfer ∨
        classifyMessage message.data message.tokenAmounts = .programmaticTokenTransfer) →
      remaining.length ≠ tokenAmounts.length * 6 →
      (ccipReceiveList st storage authority offrampProgram allowedOfframp message
          tokenAmounts remaining stateBump transferAccepts now).result =
          .error (.ccip .invalidRemainingAccounts) ∧
        (ccipReceiveList st storage authority offrampProgram allowedOfframp message
          tokenAmounts remaining stateBump transferAccepts now).attempted = [] ∧
        (ccipReceiveList st storage authority offrampProgram allowedOfframp message
          tokenAmounts remaining stateBump transferAccepts now).finalStorage storage =
          storage) := by
  constructor
  · intro st storage authority offrampProgram allowedOfframp message tokenAmount
      remaining transferAccepts now hver hAmt hType hlen
    simp [ccipReceiveScalar, hver, ccipReceiveScalarHandler, hAmt, hType, hlen,
      RunResult.finalStorage]
  · intro st storage authority offrampProgram allowedOfframp message tokenAmounts
      remaining stateBump transferAccepts now hver hNE hType hlen
    simp [ccipReceiveList, hver, ccipReceiveListHandler, List.isEmpty_iff, hNE, hType,
      hlen, RunResult.finalStorage]

/-- Witness for the amended C7: a scalar call with an empty account list and
a list-variant call with one token and an empty account list, both rejected
with `InvalidRemainingAccounts` and no storage change. -/
theorem ccipReceive_wrong_length_rejected_witness :
    ((ccipReceiveScalar sampleState sampleStorage sampleAuthority sampleOfframp
        sampleAllowedOfframp msgTokenOnly 1000 [] acceptAll 200).result =
        .error (.ccip .invalidRemainingAccounts) ∧
      (ccipReceiveScalar sampleState sampleStorage sampleAuthority sampleOfframp
        sampleAllowedOfframp msgTokenOnly 1000 [] acceptAll 200).attempted = [] ∧
      (ccipReceiveScalar sampleState sampleStorage sampleAuthority sampleOfframp
        sampleAllowedOfframp msgTokenOnly 1000 [] acceptAll 200).finalStorage
        sampleStorage = sampleStorage) ∧
    ((ccipReceiveList sampleState sampleStorage sampleAuthority sampleOfframp
        sampleAllowedOfframp msgTokenOnly [5] [] 255 acceptAll 200).result =
        .error (.ccip .invalidRemainingAccounts) ∧
      (ccipReceiveList sampleState sampleStorage sampleAuthority sampleOfframp
        sampleAllowedOfframp msgTokenOnly [5] [] 255 acceptAll 200).attempted = [] ∧
      (ccipReceiveList sampleState sampleStorage sampleAuthority sampleOfframp
        sampleAllowedOfframp msgTokenOnly [5] [] 255 acceptAll 200).finalStorage
        sampleStorage = sampleStorage) :=
  ⟨ccipReceive_wrong_length_rejected.1 sampleState sampleStorage sampleAuthority
      sampleOfframp sampleAllowedOfframp msgTokenOnly 1000 [] acceptAll 200 (by decide)
      (by decide) (by decide) (by decide),
    ccipReceive_wrong_length_rejected.2 sampleState sampleStorage sampleAuthority
      sampleOfframp sampleAllowedOfframp msgTokenOnly [5] [] 255 acceptAll 200 (by decide)
      (by decide) (by decide) (by decide)⟩

/-- Claim C9: in the scalar variant the transferred amount is exactly the
caller-supplied `token_amount` argument and is never cross-checked against
the message's own `token_amounts` list: two calls that differ only in the
amount recorded in `token_amounts[0]` (both lists non-empty), with the same
nonzero `token_amount`, attempt identical transfer sub-calls, and every
attempted sub-call moves exactly `token_amount`. -/
theorem scalar_amount_not_crosschecked
    (st : BaseState) (storage : MessagesStorage)
    (authority offrampProgram allowedOfframp : AccountMeta)
    (m1 : Any2SVMMessage) (ta0 : SVMTokenAmount) (rest : List SVMTokenAmount) (a2 : Nat)
    (tokenAmount : Nat) (remaining : List AccountMeta)
    (transferAccepts : TransferCall → Bool) (now : Int)
    (hTok : m1.tokenAmounts = ta0 :: rest)
    (hAmt : 0 < tokenAmount) :
    (ccipReceiveScalar st storage authority offrampProgram allowedOfframp m1
        tokenAmount remaining transferAccepts now).attempted =
      (ccipReceiveScalar st storage authority offrampProgram allowedOfframp
        { m1 with tokenAmounts := { ta0 with amount := a2 } :: rest }
        tokenAmount remaining transferAccepts now).attempted ∧
    ∀ c ∈ (ccipReceiveScalar st storage authority offrampProgram allowedOfframp m1
        tokenAmount remaining transferAccepts now).attempted,
      c.amount = tokenAmount := by
  have hcls : classifyMessage m1.data (ta0 :: rest) =
      classifyMessage m1.data ({ ta0 with amount := a2 } :: rest) := by
    by_cases hd : m1.data.isEmpty <;> simp [classifyMessage, hd]
  have hv : verifyCcipReceiveAccounts st authority offrampProgram allowedOfframp
      { m1 with tokenAmounts := { ta0 with amount := a2 } :: rest } =
      verifyCcipReceiveAccounts st authority offrampProgram allowedOfframp m1 := rfl
  constructor
  · unfold ccipReceiveScalar
    rw [hv]
    cases hvv : verifyCcipReceiveAccounts st authority offrampProgram allowedOfframp m1 with
    | some e => rfl
    | none =>
      rw [scalarHandler_attempted_eq, scalarHandler_attempted_eq]
      have : classifyMessage m1.data m1.tokenAmounts =
          classifyMessage m1.data ({ ta0 with amount := a2 } :: rest) := by
        rw [hTok]; exact hcls
      rw [show ({ m1 with tokenAmounts := { ta0 with amount := a2 } :: rest } :
          Any2SVMMessage).data = m1.data from rfl]
      rw [show ({ m1 with tokenAmounts := { ta0 with amount := a2 } :: rest } :
          Any2SVMMessage).tokenAmounts = { ta0 with amount := a2 } :: rest from rfl]
      rw [this]
  · intro c hc
    unfold ccipReceiveScalar at hc
    cases hvv : verifyCcipReceiveAccounts st authority offrampProgram allowedOfframp m1 with
    | some e => rw [hvv] at hc; simp at hc
    | none =>
      rw [hvv, scalarHandler_attempted_eq] at hc
      split at hc
      · simp at hc
        rw [hc]
        rfl
      · simp at hc

/-- Witness for C9 at concrete calls: messages whose first token amount is
1000 and 77 respectively, same `token_amount` 500. -/
theorem scalar_amount_not_crosschecked_witness :
    (ccipReceiveScalar sampleState sampleStorage sampleAuthority sampleOfframp
        sampleAllowedOfframp msgTokenOnly 500 remaining5 acceptAll 200).attempted =
      (ccipReceiveScalar sampleState sampleStorage sampleAuthority sampleOfframp
        sampleAllowedOfframp
        { msgTokenOnly with
            tokenAmounts := [{ token := .raw 11, amount := 77 }] }
        500 remaining5 acceptAll 200).attempted ∧
    ∀ c ∈ (ccipReceiveScalar sampleState sampleStorage sampleAuthority sampleOfframp
        sampleAllowedOfframp msgTokenOnly 500 remaining5 acceptAll 200).attempted,
      c.amount = 500 :=
  scalar_amount_not_crosschecked sampleState sampleStorage sampleAuthority sampleOfframp
    sampleAllowedOfframp msgTokenOnly { token := .raw 11, amount := 1000 } [] 77 500
    remaining5 acceptAll 200 (by decide) (by decide)

/-- Claim C10: in the relaxed variant (the `init_if_needed` `Initialize`
context with no owner gate), a repeated `initialize` call by any signer
succeeds on an already-initialized program, overwrites `state.owner` with
the signer and `state.router` with the caller-supplied value, and resets
`message_count` to 0 — so counter monotonicity does not hold across
re-initialization. -/
theorem initialize_relaxed_reinitializes
    (pre : ProgramState) (payer : AccountMeta) (router : Pubkey) (now : Int)
    (hSigner : payer.isSigner = true) :
    initializeRelaxed (some pre) payer router now =
      .ok { base := { owner := payer.key, router := router }
            storage := { lastUpdated := now, messageCount := 0
                         latestMessage := pre.storage.latestMessage } } ∧
    (∀ post, initializeRelaxed (some pre) payer router now = .ok post →
      0 < pre.storage.messageCount →
      post.storage.messageCount < pre.storage.messageCount) := by
  have hok : initializeRelaxed (some pre) payer router now =
      .ok { base := { owner := payer.key, router := router }
            storage := { lastUpdated := now, messageCount := 0
                         latestMessage := pre.storage.latestMessage } } := by
    simp [initializeRelaxed, hSigner]
  refine ⟨hok, ?_⟩
  intro post hpost hpos
  rw [hok] at hpost
  have : post = { base := { owner := payer.key, router := router }
                  storage := { lastUpdated := now, messageCount := 0
                               latestMessage := pre.storage.latestMessage } } := by
    simpa using hpost.symm
  rw [this]
  simpa using hpos

/-- Witness for C10 at a concrete re-initialization: pre-call count 4, any
signer 42, new router 8; the counter drops from 4 to 0. -/
theorem initialize_relaxed_reinitializes_witness :
    initializeRelaxed (some { base := sampleState, storage := sampleStorage })
        { key := .raw 42, owner := systemProgramId, isSigner := true } (.raw 8) 500 =
      .ok { base := { owner := .raw 42, router := .raw 8 }
            storage := { lastUpdated := 500, messageCount := 0
                         latestMessage := sampleStorage.latestMessage } } ∧
    (∀ post,
      initializeRelaxed (some { base := sampleState, storage := sampleStorage })
        { key := .raw 42, owner := systemProgramId, isSigner := true } (.raw 8) 500 =
        .ok post →
      0 < sampleStorage.messageCount →
      post.storage.messageCount < sampleStorage.messageCount) :=
  initialize_relaxed_reinitializes { base := sampleState, storage := sampleStorage }
    { key := .raw 42, owner := systemProgramId, isSigner := true } (.raw 8) 500 rfl
